import Mathlib

/-!
Verification of the Open Protocol library (Rust) against its design
specification.  The development shallowly embeds the relevant source
files:

* `src/rs/src/types.rs`       — `ID`, `OpMode`, `JobMode`
* `src/rs/src/controller.rs`  — `Controller`, `Controller::check`,
  and the serde serialization attributes
* `src/rs/src/bin/openprotocolviewer/main.rs` — `process_message`

Machine integers are modelled as `Nat` (with explicit `% 2^w` where
wrap-around matters), fallible code returns `Except`/`Option`, and the
regex-based address grammars are re-expressed as structural character
parsers with the same acceptance set (the spec itself sanctions this
translation).  String scanning is done on `String.data` with structural
recursion so that every definition evaluates inside the kernel.
-/

/-- The error type of the library (`OpenProtocolError`).  Only the
`InvalidField {field, value, description}` variant is exercised by the
validators modelled here. -/
inductive OpenProtocolError where
  | invalidField (field : String) (value : String) (description : String)
  deriving DecidableEq, Repr

deriving instance DecidableEq for Except

/-- The `field` component of an error. -/
def OpenProtocolError.fieldOf : OpenProtocolError → String
  | .invalidField f _ _ => f

/-- The `field` component of the error of a failed check, `none` for a
successful check. -/
def errorFieldOf (r : Except OpenProtocolError Unit) : Option String :=
  match r with
  | .error e => some e.fieldOf
  | .ok _ => none

/-- Modelled from the spec: `utils::check_string_empty(s, field)` (not
under `src/`) fails with `InvalidField {field, value, description}`
exactly when `s` is empty. -/
def check_string_empty (s : String) (field : String) :
    Except OpenProtocolError Unit :=
  if s = "" then .error (.invalidField field s "") else .ok ()

/-- Modelled from the spec: `utils::check_optional_str_empty` applies the
empty-string check to a present optional string. -/
def check_optional_str_empty (s : Option String) (field : String) :
    Except OpenProtocolError Unit :=
  match s with
  | some t => check_string_empty t field
  | none => .ok ()

/-- Model of an IEEE double for validation purposes: the validator
(`utils::check_f64`) inspects only finiteness (NaN/±Infinity rejected),
and the codec renders finite numbers opaquely. -/
structure F64 where
  isFinite : Bool
  deriving DecidableEq, Repr

/-- Modelled from the spec: `utils::check_f64(x, field)` fails when `x`
is NaN or infinite. -/
def check_f64 (x : F64) (field : String) : Except OpenProtocolError Unit :=
  if x.isFinite then .ok () else
    .error (.invalidField field "" "Invalid floating-point number.")

/-- Split a character list at every occurrence of `sep` (the behaviour of
`String.splitOn` for a one-character separator), by structural
recursion so the kernel can evaluate it. -/
def splitOnChar (sep : Char) : List Char → List (List Char)
  | [] => [[]]
  | c :: rest =>
    match splitOnChar sep rest with
    | [] => if c == sep then [[], []] else [[c]]
    | g :: gs => if c == sep then [] :: g :: gs else (c :: g) :: gs

/-- A run of `lo`–`hi` ASCII digits — the acceptance set of the regex
fragment `\d{lo,hi}` on an anchored group. -/
def digitRun (lo hi : Nat) (cs : List Char) : Bool :=
  decide (lo ≤ cs.length) && decide (cs.length ≤ hi) && cs.all Char.isDigit

/-- Decimal value of a non-empty all-digit character run; `none`
otherwise (the acceptance behaviour of Rust's integer `from_str`). -/
def digitsToNat? (cs : List Char) : Option Nat :=
  if cs.isEmpty then none
  else if cs.all Char.isDigit then
    some (cs.foldl (fun acc c => acc * 10 + (c.toNat - 48)) 0)
  else none

/-- The anchored pattern `\d{1,3}\.\d{1,3}\.\d{1,3}\.\d{1,3}:\d{1,5}`
(`IP_REGEX` of `controller.rs:133`) as a structural parser with the
same acceptance set. -/
def ipRegexMatch (s : String) : Bool :=
  match splitOnChar ':' s.data with
  | [quad, port] =>
    (match splitOnChar '.' quad with
     | [a, b, c, d] =>
       digitRun 1 3 a && digitRun 1 3 b && digitRun 1 3 c && digitRun 1 3 d
     | _ => false)
    && digitRun 1 5 port
  | _ => false

/-- A word character, the acceptance set of the regex fragment `\w`. -/
def isWordChar (c : Char) : Bool :=
  c.isAlphanum || c == '_'

/-- The anchored pattern `tty\w+` (`TTY_REGEX` of `controller.rs:134`)
as a structural parser with the same acceptance set. -/
def ttyRegexMatch (s : String) : Bool :=
  match s.data with
  | 't' :: 't' :: 'y' :: rest => !rest.isEmpty && rest.all isWordChar
  | _ => false

/-- The anchored pattern `COM(\d+)` (`COM_REGEX` of `controller.rs:135`)
as a structural parser with the same acceptance set. -/
def comRegexMatch (s : String) : Bool :=
  match s.data with
  | 'C' :: 'O' :: 'M' :: rest => !rest.isEmpty && rest.all Char.isDigit
  | _ => false

/-- `std::net::Ipv4Addr::from_str`: four dot-separated decimal octet
groups, each fitting in a `u8`.  Leading zeros are accepted, as in the
Rust toolchain this crate targets (its own test requires
`"1.02.003.004"` to parse). -/
def parseIpv4 (cs : List Char) : Option (Nat × Nat × Nat × Nat) :=
  match splitOnChar '.' cs with
  | [a, b, c, d] =>
    match digitsToNat? a, digitsToNat? b, digitsToNat? c, digitsToNat? d with
    | some w, some x, some y, some z =>
      if w ≤ 255 && x ≤ 255 && y ≤ 255 && z ≤ 255 then some (w, x, y, z)
      else none
    | _, _, _, _ => none
  | _ => none

/-- `u16::from_str` on an all-digit run: the decimal value when it fits
in 16 bits, `none` on overflow or on a non-numeric string. -/
def u16FromStr (cs : List Char) : Option Nat :=
  match digitsToNat? cs with
  | some n => if n ≤ 65535 then some n else none
  | none => none

/-- The address-validation block of `Controller::check`
(`controller.rs:129-181`): the non-empty check on the address, then the
three grammars first-match-wins (IP pattern, then tty, then COM); a
syntactic IP match is further required to parse as a valid IPv4 address
with a nonzero `u16` port. -/
def checkAddress (address : String) : Except OpenProtocolError Unit :=
  match check_string_empty address "address" with
  | .error e => .error e
  | .ok _ =>
    if ipRegexMatch address then
      match splitOnChar ':' address.data with
      | [quad, port] =>
        match parseIpv4 quad with
        | none =>
          .error (.invalidField "ip[address]" (String.mk quad)
            "invalid IPv4 address syntax")
        | some _ =>
          match u16FromStr port with
          | some n =>
            if n = 0 then
              .error (.invalidField "ip[port]" (String.mk port)
                "IP port cannot be zero.")
            else .ok ()
          | none =>
            .error (.invalidField "ip[port]" (String.mk port)
              "invalid port number")
      | _ => .ok ()
    else if ttyRegexMatch address then .ok ()
    else if comRegexMatch address then .ok ()
    else .error (.invalidField "ip" address "")

/-- Spec-side definition, following the spec's words only: the
dotted-quad is a valid IPv4 address when it is four dot-separated
decimal groups with each octet 0–255. -/
def specValidIpv4 (quad : List Char) : Bool :=
  match splitOnChar '.' quad with
  | [a, b, c, d] =>
    [a, b, c, d].all fun p =>
      match digitsToNat? p with
      | some n => decide (n ≤ 255)
      | none => false
  | _ => false

/-- Spec-side definition, following the spec's words only: the port is
an unsigned 16-bit integer that is not zero. -/
def specValidPort (port : List Char) : Bool :=
  match digitsToNat? port with
  | some n => decide (1 ≤ n) && decide (n ≤ 65535)
  | none => false

/-- `std::num::NonZeroU32`: a strictly positive 32-bit value.  Machine
width is tracked at use sites; the invariant carried here is
positivity. -/
def NonZeroU32 := {n : Nat // 0 < n}

instance : DecidableEq NonZeroU32 := fun a b =>
  decidable_of_iff (a.val = b.val) Subtype.ext_iff.symm

/-- `NonZeroU32::new`: `some` exactly on nonzero input. -/
def NonZeroU32.new (n : Nat) : Option NonZeroU32 :=
  if h : 0 < n then some ⟨n, h⟩ else none

/-- `NonZeroU32::get`. -/
def NonZeroU32.get (x : NonZeroU32) : Nat := x.val

/-- `types.rs:190`: `ID` wraps a `NonZeroU32`. -/
structure ID where
  inner : NonZeroU32
  deriving DecidableEq

/-- `impl From<u32> for ID` (`types.rs:198-202`): the conversion calls
`NonZeroU32::new(num).unwrap()`, so zero has no result (the Rust code
aborts there); the abort is modelled as `none`. -/
def ID.fromU32 (n : Nat) : Option ID :=
  (NonZeroU32.new n).map ID.mk

/-- `impl PartialEq<u32> for ID` (`types.rs:204-208`). -/
def ID.eqU32 (i : ID) (n : Nat) : Bool := i.inner.get == n

/-- `impl PartialEq<ID> for u32` (`types.rs:210-214`). -/
def u32EqID (n : Nat) (i : ID) : Bool := i.inner.get == n

/-- The derived `Ord` on `ID`: delegates to `NonZeroU32`, which orders
by the wrapped value. -/
def ID.cmp (a b : ID) : Ordering := compare a.inner.get b.inner.get

/-- `impl PartialOrd<u32> for ID` (`types.rs:216-220`). -/
def ID.cmpU32 (i : ID) (n : Nat) : Ordering := compare i.inner.get n

/-- `impl PartialOrd<ID> for u32` (`types.rs:222-225`). -/
def u32CmpID (n : Nat) (i : ID) : Ordering := compare n i.inner.get

/-- `types.rs:54-71`: operating modes of the controller. -/
inductive OpMode where
  | Unknown
  | Manual
  | SemiAutomatic
  | Automatic
  | Others
  | Offline
  deriving DecidableEq, Repr

/-- `OpMode::is_unknown` (`types.rs:76-78`). -/
def OpMode.is_unknown (m : OpMode) : Bool := m = OpMode.Unknown

/-- `OpMode::is_offline` (`types.rs:82-84`). -/
def OpMode.is_offline (m : OpMode) : Bool := m = OpMode.Offline

/-- `OpMode::is_online` (`types.rs:88-93`). -/
def OpMode.is_online (m : OpMode) : Bool :=
  match m with
  | OpMode.Unknown | OpMode.Offline => false
  | _ => true

/-- `OpMode::is_producing` (`types.rs:97-102`). -/
def OpMode.is_producing (m : OpMode) : Bool :=
  match m with
  | OpMode.SemiAutomatic | OpMode.Automatic => true
  | _ => false

/-- `impl Default for OpMode` (`types.rs:105-109`). -/
def OpMode.default : OpMode := OpMode.Unknown

/-- `types.rs:118-142`: job modes of the controller. -/
inductive JobMode where
  | Unknown
  | ID01 | ID02 | ID03 | ID04 | ID05 | ID06 | ID07 | ID08
  | ID09 | ID10 | ID11 | ID12 | ID13 | ID14 | ID15
  | Offline
  deriving DecidableEq, Repr

/-- `JobMode::is_online` (`types.rs:159-164`). -/
def JobMode.is_online (m : JobMode) : Bool :=
  match m with
  | JobMode.Unknown | JobMode.Offline => false
  | _ => true

/-- `impl Default for JobMode` (`types.rs:167-171`). -/
def JobMode.default : JobMode := JobMode.Unknown

/-- `controller.rs:18-23`: a single user on the system. -/
structure Operator where
  operator_id : NonZeroU32
  operator_name : Option String
  deriving DecidableEq

/-- `controller.rs:29-34`: a physical geo-location. -/
structure GeoLocation where
  geo_latitude : F64
  geo_longitude : F64
  deriving DecidableEq

/-- `GeoLocation::check` (`controller.rs:37-41`). -/
def GeoLocation.check (g : GeoLocation) : Except OpenProtocolError Unit :=
  match check_f64 g.geo_latitude "geo_latitude" with
  | .error e => .error e
  | .ok _ => check_f64 g.geo_longitude "geo_longitude"

/-- Opaque model of `chrono::DateTime<FixedOffset>`: the codec renders
it as an ISO-8601 string. -/
structure DateTimeFO where
  render : String
  deriving DecidableEq

/-- `controller.rs:47-113`: the current known status of a controller.
The two hash maps are modelled as association lists. -/
structure Controller where
  controller_id : NonZeroU32
  display_name : Option String
  controller_type : String
  version : String
  model : String
  address : String
  geo_location : Option GeoLocation
  op_mode : OpMode
  job_mode : JobMode
  last_cycle_data : Option (List (String × F64))
  variables_ : Option (List (String × F64))
  last_connection_time : Option DateTimeFO
  operator : Option Operator
  job_card_id : Option String
  mold_id : Option String

/-- `Controller::check` (`controller.rs:116-184`): the string checks in
source order — note that the `model` field is checked under the field
label `"version"`, exactly as `controller.rs:120` writes it — then the
geo-location check, then the address block. -/
def Controller.check (c : Controller) : Except OpenProtocolError Unit :=
  match check_string_empty c.controller_type "controller_type" with
  | .error e => .error e
  | .ok _ =>
  match check_string_empty c.version "version" with
  | .error e => .error e
  | .ok _ =>
  match check_string_empty c.model "version" with
  | .error e => .error e
  | .ok _ =>
  match check_optional_str_empty c.job_card_id "job_card_id" with
  | .error e => .error e
  | .ok _ =>
  match check_optional_str_empty c.mold_id "mold_id" with
  | .error e => .error e
  | .ok _ =>
  match (match c.geo_location with
         | some geo => geo.check
         | none => .ok ()) with
  | .error e => .error e
  | .ok _ => checkAddress c.address

/-- `impl Default for Controller` (`controller.rs:187-207`). -/
def Controller.default : Controller where
  controller_id := ⟨1, Nat.one_pos⟩
  display_name := none
  controller_type := "Unknown"
  version := "Unknown"
  model := "Unknown"
  address := "0.0.0.0:1"
  geo_location := none
  op_mode := OpMode.Unknown
  job_mode := JobMode.Unknown
  last_cycle_data := none
  variables_ := none
  last_connection_time := none
  operator := none
  job_card_id := none
  mold_id := none

/-- JSON values as produced by the `Controller` serializer.  `num`
carries a finite number; serde_json renders a non-finite `f64` as JSON
`null`.  The two hash-map fields only ever hold number-or-null values,
so their object form is the specialized `numMap` constructor, whose
entry values are `some x` for a finite number and `none` for the
`null` rendered from a non-finite value. -/
inductive JsonVal where
  | null
  | str (s : String)
  | num (x : F64)
  | nat (n : Nat)
  | numMap (entries : List (String × Option F64))
  deriving DecidableEq

/-- serde_json's rendering of an `f64` value: a JSON number when
finite, JSON `null` for NaN/±Infinity. -/
def f64Json (x : F64) : JsonVal :=
  if x.isFinite then .num x else .null

/-- serde_json's rendering of one value inside the nested
cycle-data/variables objects: `some` = finite number, `none` = the
JSON `null` rendered from a non-finite value. -/
def f64MapEntry (x : F64) : Option F64 :=
  if x.isFinite then some x else none

/-- serde's default external naming of an `OpMode` variant. -/
def OpMode.serName (m : OpMode) : String :=
  match m with
  | .Unknown => "Unknown"
  | .Manual => "Manual"
  | .SemiAutomatic => "SemiAutomatic"
  | .Automatic => "Automatic"
  | .Others => "Others"
  | .Offline => "Offline"

/-- serde's default external naming of a `JobMode` variant. -/
def JobMode.serName (m : JobMode) : String :=
  match m with
  | .Unknown => "Unknown"
  | .ID01 => "ID01" | .ID02 => "ID02" | .ID03 => "ID03"
  | .ID04 => "ID04" | .ID05 => "ID05" | .ID06 => "ID06"
  | .ID07 => "ID07" | .ID08 => "ID08" | .ID09 => "ID09"
  | .ID10 => "ID10" | .ID11 => "ID11" | .ID12 => "ID12"
  | .ID13 => "ID13" | .ID14 => "ID14" | .ID15 => "ID15"
  | .Offline => "Offline"

/-- Fields contributed by an optional component: nothing when absent
(`skip_serializing_if = "Option::is_none"`), `f`'s fields when
present. -/
def optEntry {α : Type} (o : Option α) (f : α → List (String × JsonVal)) :
    List (String × JsonVal) :=
  match o with
  | none => []
  | some x => f x

/-- The serialization of a present `operator_name`; the `Operator`
struct of `controller.rs:18-23` carries no `skip_serializing_if`
attribute on this optional field, so an absent name serializes as JSON
`null`. -/
def operatorNameJson (o : Option String) : JsonVal :=
  match o with
  | some n => .str n
  | none => .null

/-- The JSON object produced by serializing a `Controller`
(`controller.rs:45-113`): entries in declaration order, lower-camel-case
names from `rename_all = "camelCase"`, the address renamed to `"IP"`,
optional fields skipped when `none`, and the flattened `geo_location`
and `operator` components inlined as sibling entries. -/
def Controller.toJsonFields (c : Controller) : List (String × JsonVal) :=
  [("controllerId", .nat c.controller_id.get)]
  ++ optEntry c.display_name (fun s => [("displayName", .str s)])
  ++ [("controllerType", .str c.controller_type),
      ("version", .str c.version),
      ("model", .str c.model),
      ("IP", .str c.address)]
  ++ optEntry c.geo_location (fun g =>
       [("geoLatitude", f64Json g.geo_latitude),
        ("geoLongitude", f64Json g.geo_longitude)])
  ++ [("opMode", .str c.op_mode.serName),
      ("jobMode", .str c.job_mode.serName)]
  ++ optEntry c.last_cycle_data (fun m =>
       [("lastCycleData", .numMap (m.map fun p => (p.1, f64MapEntry p.2)))])
  ++ optEntry c.variables_ (fun m =>
       [("variables", .numMap (m.map fun p => (p.1, f64MapEntry p.2)))])
  ++ optEntry c.last_connection_time (fun t =>
       [("lastConnectionTime", .str t.render)])
  ++ optEntry c.operator (fun op =>
       [("operatorId", .nat op.operator_id.get),
        ("operatorName", operatorNameJson op.operator_name)])
  ++ optEntry c.job_card_id (fun s => [("jobCardId", .str s)])
  ++ optEntry c.mold_id (fun s => [("moldId", .str s)])

/-- A job card (`JobCard::new(job_card_id, mold_id, progress, total)`),
with the fields the demo reads. -/
structure JobCard where
  job_card_id : String
  mold_id : String
  progress : Nat
  total : Nat
  deriving DecidableEq

/-- A JOIN filter category (the source's `Filter` enum; renamed here to
avoid the ambient `Filter` of the proof library). -/
inductive JoinFilter where
  | All
  | JobCards
  | Operators
  deriving DecidableEq

/-- Modelled from the spec: the shared message envelope carries (at
minimum) a client-assigned sequence number, preserved opaquely. -/
structure MessageOptions where
  sequence : Nat
  deriving DecidableEq

/-- Modelled from the spec: `MessageOptions::default()` assigns a fresh
client sequence number from a process-wide counter; the counter value is
passed explicitly in this embedding. -/
def MessageOptions.fresh (seq : Nat) : MessageOptions := ⟨seq⟩

/-- Modelled from the spec: the closed tagged-union message model
(`ichen_openprotocol::Message`, outside `src/`), restricted to the
variants and fields the demo's `process_message` consumes and
produces. -/
inductive Message where
  | alive (options : MessageOptions)
  | join (password : String) (filters : List JoinFilter)
      (options : MessageOptions)
  | joinResponse (result : Nat) (options : MessageOptions)
  | requestControllersList (controller_id : Option ID)
      (options : MessageOptions)
  | requestJobCardsList (controller_id : ID) (options : MessageOptions)
  | jobCardsList (controller_id : ID) (data : List (String × JobCard))
      (options : MessageOptions)
  | loginOperator (controller_id : ID) (password : String)
      (options : MessageOptions)
  | operatorInfo (controller_id : ID) (operator_id : Option NonZeroU32)
      (name : String) (password : String) (level : Nat)
      (options : MessageOptions)
  deriving DecidableEq

/-- Modelled from the spec: `Message::new_alive()` builds an `Alive`
with default (fresh-sequence) options. -/
def new_alive (seq : Nat) : Message := .alive (MessageOptions.fresh seq)

/-- The demo's fixed collaborators (`main.rs:14-17`): the mock operator
directory (password → access level and display name) and the mock job
list.  The hash map is modelled as an association list with the same
lookup behaviour. -/
structure Constants where
  users : List (String × Nat × String)
  jobs : List JobCard

/-- The reaction `match` of `process_message` (`main.rs:72-123`),
deciding the zero-or-one outbound message for a decoded inbound
message.  `seq` is the fresh sequence the next `Default` options would
draw.  The operator level is a `u8`, so the `level + 1` of
`main.rs:94` wraps at 256. -/
def processDecoded (message : Message) (constants : Constants)
    (seq : Nat) : Option Message :=
  match message with
  | .alive _ => some (new_alive seq)
  | .joinResponse result _ =>
    if result < 100 then none
    else some (.requestControllersList none (MessageOptions.fresh seq))
  | .loginOperator controller_id password _ =>
    (match constants.users.lookup password with
     | some (level, name) =>
       some (.operatorInfo controller_id
         (NonZeroU32.new ((level + 1) % 256)) name password level
         (MessageOptions.fresh seq))
     | none =>
       some (.operatorInfo controller_id none "Not Allowed" password 0
         (MessageOptions.fresh seq)))
  | .requestJobCardsList controller_id _ =>
    some (.jobCardsList controller_id
      (constants.jobs.map fun jc => (jc.job_card_id, jc))
      (MessageOptions.fresh seq))
  | _ => none

/-- A parse failure of the message codec. -/
inductive ParseError where
  | malformed (description : String)
  deriving DecidableEq

/-- `process_message` (`main.rs:57-124`): parse the raw text, report a
parse failure locally by returning no reply, otherwise react.  The
codec's `parse_from_json_str` lives outside `src/`, so it is abstracted
as the `parse` parameter. -/
def process_message (parse : String → Except ParseError Message)
    (json : String) (constants : Constants) (seq : Nat) : Option Message :=
  match parse json with
  | .error _ => none
  | .ok m => processDecoded m constants seq

/-- Modelled from the spec: the session protocol states. -/
inductive SessionState where
  | Disconnected
  | Joining
  | Active
  | Closing
  | Closed
  deriving DecidableEq, Repr

/-- Modelled from the spec: the session-state reaction to a decoded
inbound message — a `JoinResponse` with result below 100 is a fatal
join rejection moving the session to `Closing`, one with result at
least 100 moves it to `Active`; no other inbound message changes the
state.  The state bookkeeping is not reified in the source; the reply
behaviour is `processDecoded`. -/
def sessionTransition (st : SessionState) (m : Message) : SessionState :=
  match m with
  | .joinResponse result _ =>
    if result < 100 then SessionState.Closing else SessionState.Active
  | _ => st

/-- One connection run: feed raw inbound texts through
`process_message`, threading the session state and the fresh-sequence
counter, and collect the outbound messages in order. -/
def runSession (parse : String → Except ParseError Message)
    (constants : Constants) :
    SessionState → Nat → List String → SessionState × List Message
  | st, _, [] => (st, [])
  | st, seq, json :: rest =>
    match parse json with
    | .error _ => runSession parse constants st seq rest
    | .ok m =>
      match processDecoded m constants seq with
      | none => runSession parse constants (sessionTransition st m) seq rest
      | some out =>
        let r := runSession parse constants (sessionTransition st m)
          (seq + 1) rest
        (r.1, out :: r.2)

/-- The demo's mock databases (`main.rs:180-198`): eleven passwords
mapping to levels 0–10 with names `MISUser0`–`MISUser10`, and four job
cards. -/
def demoConstants : Constants where
  users :=
    [("000000", 0, "MISUser0"), ("111111", 1, "MISUser1"),
     ("222222", 2, "MISUser2"), ("333333", 3, "MISUser3"),
     ("444444", 4, "MISUser4"), ("555555", 5, "MISUser5"),
     ("666666", 6, "MISUser6"), ("777777", 7, "MISUser7"),
     ("888888", 8, "MISUser8"), ("999999", 9, "MISUser9"),
     ("123456", 10, "MISUser10")]
  jobs :=
    [⟨"JOB_CARD_1", "ABC-123", 0, 8000⟩,
     ⟨"JOB_CARD_2", "M002", 2000, 10000⟩,
     ⟨"JOB_CARD_3", "MOULD_003", 888, 3333⟩,
     ⟨"JOB_CARD_4", "MOULD_004", 123, 45678⟩]

/-- The serde test controller of `controller.rs:217-225`. -/
def testControllerSer : Controller :=
  { Controller.default with
    op_mode := OpMode.Automatic
    job_mode := JobMode.ID02
    operator := some ⟨⟨123, by decide⟩, some "John"⟩ }

/-- The JSON object asserted by `test_controller_serialize`
(`controller.rs:228-230`). -/
def testControllerJson : List (String × JsonVal) :=
  [("controllerId", .nat 1), ("controllerType", .str "Unknown"),
   ("version", .str "Unknown"), ("model", .str "Unknown"),
   ("IP", .str "0.0.0.0:1"), ("opMode", .str "Automatic"),
   ("jobMode", .str "ID02"), ("operatorId", .nat 123),
   ("operatorName", .str "John")]

/-- The complete key vocabulary of the `Controller` serializer:
lower-camel-case names, plus the one irregular rename `"IP"`. -/
def allowedJsonKeys : List String :=
  ["controllerId", "displayName", "controllerType", "version", "model",
   "IP", "geoLatitude", "geoLongitude", "opMode", "jobMode",
   "lastCycleData", "variables", "lastConnectionTime", "operatorId",
   "operatorName", "jobCardId", "moldId"]

/-- A parse function that rejects every input, exercising the
malformed-input path on concrete runs. -/
def rejectAllParse : String → Except ParseError Message :=
  fun _ => .error (.malformed "bad input")

theorem checkStringEmpty_ok {s : String} (h : s ≠ "") (field : String) :
    check_string_empty s field = .ok () := by
  simp [check_string_empty, h]

theorem specValidIpv4_eq (q : List Char) :
    specValidIpv4 q = (parseIpv4 q).isSome := by
  unfold specValidIpv4 parseIpv4
  rcases splitOnChar '.' q with _ | ⟨a, _ | ⟨b, _ | ⟨c, _ | ⟨d, _ | ⟨e, es⟩⟩⟩⟩⟩ <;>
    try rfl
  simp only [List.all_cons, List.all_nil, Bool.and_true]
  rcases hA : digitsToNat? a with _ | w <;>
    rcases hB : digitsToNat? b with _ | x <;>
    rcases hC : digitsToNat? c with _ | y <;>
    rcases hD : digitsToNat? d with _ | z <;>
    simp only [Option.isSome]
  all_goals try simp
  by_cases hw : w ≤ 255 <;> by_cases hx : x ≤ 255 <;>
    by_cases hy : y ≤ 255 <;> by_cases hz : z ≤ 255 <;>
    simp [hw, hx, hy, hz]

theorem specValidPort_eq (p : List Char) :
    specValidPort p = ((u16FromStr p).getD 0 != 0) := by
  unfold specValidPort u16FromStr
  rcases digitsToNat? p with _ | n
  · rfl
  · by_cases h : n ≤ 65535
    · simp only [if_pos h, Option.getD_some]
      rw [decide_eq_true h]
      cases n with
      | zero => rfl
      | succ m =>
        rw [decide_eq_true (Nat.succ_le_succ (Nat.zero_le m))]
        rfl
    · simp [h]

/-- C8: `OpMode::is_producing()` returns true exactly for the
`SemiAutomatic` and `Automatic` variants; `OpMode::is_online()` returns
false exactly for the `Unknown` and `Offline` variants; and the default
`OpMode` value is `Unknown`. -/
theorem c8_opmode_predicates :
    (∀ m : OpMode, m.is_producing = true ↔
      (m = OpMode.SemiAutomatic ∨ m = OpMode.Automatic))
    ∧ (∀ m : OpMode, m.is_online = false ↔
      (m = OpMode.Unknown ∨ m = OpMode.Offline))
    ∧ OpMode.default = OpMode.Unknown := by
  refine ⟨fun m => ?_, fun m => ?_, rfl⟩ <;>
    cases m <;> simp [OpMode.is_producing, OpMode.is_online]

/-- C10: when `Controller::check` runs on a controller whose `model`
string is empty (and whose `controller_type` and `version` are
non-empty), the returned `InvalidField` error carries the field name
`"version"`, not `"model"` — `controller.rs:120` passes the wrong
label. -/
theorem c10_model_mislabel (ct v : String) (hct : ct ≠ "") (hv : v ≠ "") :
    errorFieldOf (Controller.check
      { Controller.default with
        controller_type := ct, version := v, model := "" })
      = some "version"
    ∧ "version" ≠ "model" := by
  refine ⟨?_, by decide⟩
  simp [Controller.check, check_string_empty, hct, hv, errorFieldOf,
    OpenProtocolError.fieldOf]

/-- Witness for C10 at a concrete controller type and version. -/
theorem c10_model_mislabel_witness :
    errorFieldOf (Controller.check
      { Controller.default with
        controller_type := "Ai01", version := "1.0", model := "" })
      = some "version" :=
  (c10_model_mislabel "Ai01" "1.0" (by decide) (by decide)).1

/-- C7: the `ID` type cannot be constructed from the integer 0 (the
conversion has no result there); for every nonzero 32-bit `n`,
`ID::from(n)` compares equal to `n` from both sides; and the ordering
of two `ID`s, and of an `ID` against a raw integer (either way round),
matches the numeric order of the wrapped integers. -/
theorem c7_id_nonzero_ordered (n : Nat) (h0 : n ≠ 0)
    (h32 : n < 4294967296) :
    ID.fromU32 0 = none
    ∧ (ID.fromU32 n).map (fun i => ID.eqU32 i n) = some true
    ∧ (ID.fromU32 n).map (fun i => u32EqID n i) = some true
    ∧ (∀ a b : ID, ID.cmp a b = Ordering.lt ↔ a.inner.get < b.inner.get)
    ∧ (∀ a b : ID, ID.cmp a b = Ordering.eq ↔ a = b)
    ∧ (∀ (i : ID) (m : Nat), ID.cmpU32 i m = Ordering.lt ↔ i.inner.get < m)
    ∧ (∀ (i : ID) (m : Nat), u32CmpID m i = Ordering.lt ↔ m < i.inner.get)
    := by
  have hp : 0 < n := Nat.pos_of_ne_zero h0
  refine ⟨rfl, ?_, ?_, fun a b => ?_, fun a b => ?_, fun i m => ?_,
    fun i m => ?_⟩
  · simp [ID.fromU32, NonZeroU32.new, hp, ID.eqU32, NonZeroU32.get]
  · simp [ID.fromU32, NonZeroU32.new, hp, u32EqID, NonZeroU32.get]
  · exact Nat.compare_eq_lt
  · rw [ID.cmp, Nat.compare_eq_eq]
    obtain ⟨⟨av, hav⟩⟩ := a
    obtain ⟨⟨bv, hbv⟩⟩ := b
    simp only [NonZeroU32.get, ID.mk.injEq]
    exact ⟨fun h => Subtype.ext h, fun h => congrArg Subtype.val h⟩
  · exact Nat.compare_eq_lt
  · exact Nat.compare_eq_lt

/-- Witness for C7 at the nonzero input 3, with concrete comparisons. -/
theorem c7_id_nonzero_ordered_witness :
    (3 ≠ 0 ∧ 3 < 4294967296)
    ∧ ID.fromU32 0 = none
    ∧ (ID.fromU32 3).map (fun i => ID.eqU32 i 3) = some true
    ∧ ID.cmp (ID.mk ⟨2, by decide⟩) (ID.mk ⟨5, by decide⟩) = Ordering.lt
    ∧ ID.cmpU32 (ID.mk ⟨7, by decide⟩) 9 = Ordering.lt := by
  have h := c7_id_nonzero_ordered 3 (by decide) (by decide)
  exact ⟨⟨by decide, by decide⟩, h.1, h.2.1,
    (h.2.2.2.1 _ _).mpr (by decide),
    (h.2.2.2.2.2.1 _ _).mpr (by decide)⟩

/-- C2: an inbound `JoinResponse` whose result is below 100 produces no
reply (`main.rs:77-80`) and moves the session to `Closing`; join
rejection is the only message reaction that sends the session to
`Closing` from any other state. -/
theorem c2_join_rejection (result : Nat) (opts : MessageOptions)
    (c : Constants) (seq : Nat) (st : SessionState)
    (h : result < 100) :
    processDecoded (.joinResponse result opts) c seq = none
    ∧ sessionTransition st (.joinResponse result opts)
        = SessionState.Closing
    ∧ (∀ (m : Message) (st' : SessionState),
        st' ≠ SessionState.Closing →
        sessionTransition st' m = SessionState.Closing →
        match m with
        | .joinResponse r _ => r < 100
        | _ => False) := by
  refine ⟨by simp [processDecoded, h], by simp [sessionTransition, h], ?_⟩
  intro m st' hne htr
  cases m <;> simp only [sessionTransition] at htr <;>
    try exact absurd htr hne
  rename_i r o
  by_cases hr : r < 100
  · exact hr
  · rw [if_neg hr] at htr
    exact absurd htr (by decide)

/-- Witness for C2 at result 42 in the `Active` state. -/
theorem c2_join_rejection_witness :
    (42 < 100)
    ∧ processDecoded (.joinResponse 42 ⟨7⟩) demoConstants 9 = none
    ∧ sessionTransition SessionState.Active (.joinResponse 42 ⟨7⟩)
        = SessionState.Closing := by
  have h := c2_join_rejection 42 ⟨7⟩ demoConstants 9 SessionState.Active
    (by decide)
  exact ⟨by decide, h.1, h.2.1⟩

/-- C3: an inbound `JoinResponse` with result at least 100, received
while `Joining`, moves the session to `Active` and the reply is exactly
one `RequestControllersList` with no specific controller
(`main.rs:81-84`). -/
theorem c3_join_success (result : Nat) (opts : MessageOptions)
    (c : Constants) (seq : Nat) (h : 100 ≤ result) :
    sessionTransition SessionState.Joining (.joinResponse result opts)
        = SessionState.Active
    ∧ processDecoded (.joinResponse result opts) c seq
        = some (.requestControllersList none (MessageOptions.fresh seq)) := by
  have h' : ¬ result < 100 := by omega
  exact ⟨by simp [sessionTransition, h'], by simp [processDecoded, h']⟩

/-- Witness for C3 at result 150. -/
theorem c3_join_success_witness :
    (100 ≤ 150)
    ∧ sessionTransition SessionState.Joining (.joinResponse 150 ⟨7⟩)
        = SessionState.Active
    ∧ processDecoded (.joinResponse 150 ⟨7⟩) demoConstants 4
        = some (.requestControllersList none (MessageOptions.fresh 4)) := by
  have h := c3_join_success 150 ⟨7⟩ demoConstants 4 (by decide)
  exact ⟨by decide, h.1, h.2⟩

/-- C4: an inbound `LoginOperator` never fails: a password found in the
operator directory yields exactly one `OperatorInfo` with that level and
name (operator id `level + 1`, hence `Some(1)` for level 0); an unknown
password yields exactly one `OperatorInfo` with level 0, no operator id,
and the fixed name `"Not Allowed"` (`main.rs:87-114`). -/
theorem c4_login_operator (cid : ID) (password : String)
    (opts : MessageOptions) (c : Constants) (seq : Nat) :
    (∀ level name, c.users.lookup password = some (level, name) →
      processDecoded (.loginOperator cid password opts) c seq
        = some (.operatorInfo cid (NonZeroU32.new ((level + 1) % 256))
            name password level (MessageOptions.fresh seq)))
    ∧ (c.users.lookup password = none →
      processDecoded (.loginOperator cid password opts) c seq
        = some (.operatorInfo cid none "Not Allowed" password 0
            (MessageOptions.fresh seq)))
    ∧ (processDecoded (.loginOperator cid password opts) c seq).isSome
        = true
    ∧ (NonZeroU32.new ((0 + 1) % 256)).map NonZeroU32.get = some 1 := by
  refine ⟨?_, ?_, ?_, by decide⟩
  · intro level name hl
    simp [processDecoded, hl]
  · intro hl
    simp [processDecoded, hl]
  · rcases hl : c.users.lookup password with _ | ⟨level, name⟩ <;>
      simp [processDecoded, hl]

/-- Witness for C4 against the demo directory: the known password
`"000000"` and an unknown one. -/
theorem c4_login_operator_witness :
    demoConstants.users.lookup "000000" = some (0, "MISUser0")
    ∧ processDecoded
        (.loginOperator (ID.mk ⟨1, Nat.one_pos⟩) "000000" ⟨3⟩)
        demoConstants 5
        = some (.operatorInfo (ID.mk ⟨1, Nat.one_pos⟩)
            (NonZeroU32.new ((0 + 1) % 256)) "MISUser0" "000000" 0
            (MessageOptions.fresh 5))
    ∧ demoConstants.users.lookup "zzzzzz" = none
    ∧ processDecoded
        (.loginOperator (ID.mk ⟨1, Nat.one_pos⟩) "zzzzzz" ⟨3⟩)
        demoConstants 5
        = some (.operatorInfo (ID.mk ⟨1, Nat.one_pos⟩) none
            "Not Allowed" "zzzzzz" 0 (MessageOptions.fresh 5)) := by
  have h1 := c4_login_operator (ID.mk ⟨1, Nat.one_pos⟩) "000000" ⟨3⟩
    demoConstants 5
  have h2 := c4_login_operator (ID.mk ⟨1, Nat.one_pos⟩) "zzzzzz" ⟨3⟩
    demoConstants 5
  exact ⟨by decide, h1.1 0 "MISUser0" (by decide), by decide,
    h2.2.1 (by decide)⟩

/-- C5: an inbound `Alive` (the session state plays no role in the
reaction) produces exactly one outbound `Alive` (`main.rs:74`), whose
sequence is the freshly drawn one, not an echo of the inbound
sequence. -/
theorem c5_alive_echo (s seq : Nat) (c : Constants) (st : SessionState)
    (h : seq ≠ s) :
    processDecoded (.alive ⟨s⟩) c seq = some (new_alive seq)
    ∧ new_alive seq = .alive (MessageOptions.fresh seq)
    ∧ Message.alive (MessageOptions.fresh seq) ≠ .alive ⟨s⟩
    ∧ sessionTransition st (.alive ⟨s⟩) = st := by
  refine ⟨rfl, rfl, ?_, rfl⟩
  intro hEq
  simp only [MessageOptions.fresh, Message.alive.injEq,
    MessageOptions.mk.injEq] at hEq
  exact h hEq

/-- Witness for C5: inbound sequence 7, fresh sequence 8, in the
`Active` state. -/
theorem c5_alive_echo_witness :
    (8 ≠ 7)
    ∧ processDecoded (.alive ⟨7⟩) demoConstants 8 = some (new_alive 8)
    ∧ Message.alive (MessageOptions.fresh 8) ≠ .alive ⟨7⟩
    ∧ sessionTransition SessionState.Active (.alive ⟨7⟩)
        = SessionState.Active := by
  have h := c5_alive_echo 7 8 demoConstants SessionState.Active (by decide)
  exact ⟨by decide, h.1, h.2.2.1, h.2.2.2⟩

/-- C6: a raw input the codec rejects produces no outbound message
(`main.rs:66-69`), and a whole run treats it as a no-op: the session
state, the sequence counter, and the handling of all later traffic are
exactly as if the malformed input had never arrived.  Every rejection
is the typed `ParseError` value; the model is total, so no input aborts
processing. -/
theorem c6_malformed_input (parse : String → Except ParseError Message)
    (json : String) (e : ParseError) (h : parse json = .error e)
    (c : Constants) (st : SessionState) (seq : Nat)
    (rest : List String) :
    process_message parse json c seq = none
    ∧ runSession parse c st seq (json :: rest)
        = runSession parse c st seq rest := by
  constructor
  · simp [process_message, h]
  · conv_lhs => rw [runSession]
    rw [h]

/-- Witness for C6: a rejecting codec, one malformed input followed by
one further input. -/
theorem c6_malformed_input_witness :
    rejectAllParse "not json" = .error (.malformed "bad input")
    ∧ process_message rejectAllParse "not json" demoConstants 0 = none
    ∧ runSession rejectAllParse demoConstants SessionState.Active 0
        ["not json", "later"]
        = runSession rejectAllParse demoConstants SessionState.Active 0
            ["later"] := by
  have h := c6_malformed_input rejectAllParse "not json"
    (.malformed "bad input") rfl demoConstants SessionState.Active 0
    ["later"]
  exact ⟨rfl, h.1, h.2⟩

/-- C1 counterexample: the empty address does match none of the three
grammars, yet `Controller::check` rejects it with field `"address"`
(the non-empty check of `controller.rs:130` fires first), not with
`InvalidField{field:"ip", ...}` as the claim states. -/
theorem c1_address_check_cex :
    ipRegexMatch "" = false
    ∧ ttyRegexMatch "" = false
    ∧ comRegexMatch "" = false
    ∧ errorFieldOf (Controller.check
        { Controller.default with address := "" }) = some "address"
    ∧ "address" ≠ "ip" := by decide

/-- C1 (amended): `Controller::check` validates the address by the
three grammars first-match-wins (IP pattern, then tty, then COM),
accepting `"1.02.003.004:05"`, `"COM123"` and `"ttyABC"` and rejecting
`"1.2.3.4"`, `"1.2.3.4:0"`, `"COM"` and `""`; a *non-empty* address
matching none of the three grammars fails with
`InvalidField{field:"ip", value, description:""}` (the empty address is
rejected earlier, by the non-empty check, under field `"address"`); and
whenever the IP pattern matches syntactically, the check succeeds
exactly when the dotted-quad parses as a valid IPv4 address and the
port as a nonzero unsigned 16-bit integer. -/
theorem c1_address_check (a : String) (hne : a ≠ "")
    (hip : ipRegexMatch a = false) (htty : ttyRegexMatch a = false)
    (hcom : comRegexMatch a = false) :
    checkAddress a = .error (.invalidField "ip" a "")
    ∧ checkAddress "1.02.003.004:05" = .ok ()
    ∧ checkAddress "COM123" = .ok ()
    ∧ checkAddress "ttyABC" = .ok ()
    ∧ errorFieldOf (checkAddress "1.2.3.4") = some "ip"
    ∧ errorFieldOf (checkAddress "1.2.3.4:0") = some "ip[port]"
    ∧ errorFieldOf (checkAddress "COM") = some "ip"
    ∧ (checkAddress "").isOk = false
    ∧ (∀ b : String,
        Controller.check { Controller.default with address := b }
          = checkAddress b)
    ∧ (∀ (b : String) (quad port : List Char),
        ipRegexMatch b = true →
        splitOnChar ':' b.data = [quad, port] →
        (checkAddress b = .ok () ↔
          specValidIpv4 quad = true ∧ specValidPort port = true)) := by
  refine ⟨?_, by decide, by decide, by decide, by decide, by decide,
    by decide, by decide, fun b => rfl, ?_⟩
  · rw [checkAddress, checkStringEmpty_ok hne]
    rw [hip, htty, hcom]
    rfl
  · intro b quad port hipb hsp
    have hbne : b ≠ "" := by
      intro hB
      rw [hB] at hipb
      exact absurd hipb (by decide)
    rw [checkAddress, checkStringEmpty_ok hbne]
    rw [hipb, hsp]
    rcases hq : parseIpv4 quad with _ | val
    · simp [specValidIpv4_eq, hq]
    · rcases hp : u16FromStr port with _ | n
      · simp [specValidIpv4_eq, specValidPort_eq, hq, hp]
      · by_cases hn : n = 0 <;>
          simp [specValidIpv4_eq, specValidPort_eq, hq, hp, hn]

/-- Witness for C1: a non-empty address matching none of the grammars
falls through to the `"ip"` error, and a syntactic IP match with an
overflowing port is a hard validation error. -/
theorem c1_address_check_witness :
    ("xyz" ≠ "" ∧ ipRegexMatch "xyz" = false
      ∧ ttyRegexMatch "xyz" = false ∧ comRegexMatch "xyz" = false)
    ∧ checkAddress "xyz" = .error (.invalidField "ip" "xyz" "")
    ∧ (ipRegexMatch "1.2.3.4:99999" = true
      ∧ splitOnChar ':' "1.2.3.4:99999".data
          = ["1.2.3.4".data, "99999".data])
    ∧ (checkAddress "1.2.3.4:99999" = .ok () ↔
        specValidIpv4 "1.2.3.4".data = true
        ∧ specValidPort "99999".data = true) := by
  have h := c1_address_check "xyz" (by decide) (by decide) (by decide)
    (by decide)
  exact ⟨⟨by decide, by decide, by decide, by decide⟩, h.1,
    ⟨by decide, by decide⟩,
    h.2.2.2.2.2.2.2.2.2 "1.2.3.4:99999" "1.2.3.4".data "99999".data
      (by decide) (by decide)⟩

theorem mem_optEntry {α : Type} {o : Option α}
    {f : α → List (String × JsonVal)} {x : String × JsonVal}
    (h : x ∈ optEntry o f) : ∃ a, o = some a ∧ x ∈ f a := by
  cases o with
  | none => simp [optEntry] at h
  | some a => exact ⟨a, rfl, h⟩

/-- Every entry of the serialized `Controller` object comes from exactly
one of the seventeen possible fields, with its value determined by the
corresponding component. -/
theorem toJson_origin (c : Controller) (k : String) (v : JsonVal)
    (h : (k, v) ∈ c.toJsonFields) :
    (k = "controllerId" ∧ v = .nat c.controller_id.get)
    ∨ (∃ s, c.display_name = some s ∧ k = "displayName" ∧ v = .str s)
    ∨ (k = "controllerType" ∧ v = .str c.controller_type)
    ∨ (k = "version" ∧ v = .str c.version)
    ∨ (k = "model" ∧ v = .str c.model)
    ∨ (k = "IP" ∧ v = .str c.address)
    ∨ (∃ g, c.geo_location = some g ∧
        ((k = "geoLatitude" ∧ v = f64Json g.geo_latitude)
          ∨ (k = "geoLongitude" ∧ v = f64Json g.geo_longitude)))
    ∨ (k = "opMode" ∧ v = .str c.op_mode.serName)
    ∨ (k = "jobMode" ∧ v = .str c.job_mode.serName)
    ∨ (∃ m, c.last_cycle_data = some m ∧ k = "lastCycleData"
        ∧ v = .numMap (m.map fun p => (p.1, f64MapEntry p.2)))
    ∨ (∃ m, c.variables_ = some m ∧ k = "variables"
        ∧ v = .numMap (m.map fun p => (p.1, f64MapEntry p.2)))
    ∨ (∃ t, c.last_connection_time = some t ∧ k = "lastConnectionTime"
        ∧ v = .str t.render)
    ∨ (∃ op, c.operator = some op ∧
        ((k = "operatorId" ∧ v = .nat op.operator_id.get)
          ∨ (k = "operatorName" ∧ v = operatorNameJson op.operator_name)))
    ∨ (∃ s, c.job_card_id = some s ∧ k = "jobCardId" ∧ v = .str s)
    ∨ (∃ s, c.mold_id = some s ∧ k = "moldId" ∧ v = .str s) := by
  unfold Controller.toJsonFields at h
  simp only [List.append_assoc] at h
  rcases List.mem_append.1 h with h | h
  · simp only [List.mem_singleton, Prod.mk.injEq] at h
    exact .inl h
  rcases List.mem_append.1 h with h | h
  · obtain ⟨s, hs, hm⟩ := mem_optEntry h
    simp only [List.mem_singleton, Prod.mk.injEq] at hm
    exact .inr (.inl ⟨s, hs, hm.1, hm.2⟩)
  rcases List.mem_append.1 h with h | h
  · simp only [List.mem_cons, List.not_mem_nil, or_false,
      Prod.mk.injEq] at h
    rcases h with h | h | h | h
    · exact .inr (.inr (.inl h))
    · exact .inr (.inr (.inr (.inl h)))
    · exact .inr (.inr (.inr (.inr (.inl h))))
    · exact .inr (.inr (.inr (.inr (.inr (.inl h)))))
  rcases List.mem_append.1 h with h | h
  · obtain ⟨g, hg, hm⟩ := mem_optEntry h
    simp only [List.mem_cons, List.not_mem_nil, or_false,
      Prod.mk.injEq] at hm
    exact .inr (.inr (.inr (.inr (.inr (.inr (.inl ⟨g, hg, hm⟩))))))
  rcases List.mem_append.1 h with h | h
  · simp only [List.mem_cons, List.not_mem_nil, or_false,
      Prod.mk.injEq] at h
    rcases h with h | h
    · exact .inr (.inr (.inr (.inr (.inr (.inr (.inr (.inl h)))))))
    · exact .inr (.inr (.inr (.inr (.inr (.inr (.inr (.inr (.inl h))))))))
  rcases List.mem_append.1 h with h | h
  · obtain ⟨m, hm, hx⟩ := mem_optEntry h
    simp only [List.mem_singleton, Prod.mk.injEq] at hx
    exact .inr (.inr (.inr (.inr (.inr (.inr (.inr (.inr (.inr (.inl ⟨m, hm, hx.1, hx.2⟩)))))))))
  rcases List.mem_append.1 h with h | h
  · obtain ⟨m, hm, hx⟩ := mem_optEntry h
    simp only [List.mem_singleton, Prod.mk.injEq] at hx
    exact .inr (.inr (.inr (.inr (.inr (.inr (.inr (.inr (.inr (.inr (.inl ⟨m, hm, hx.1, hx.2⟩))))))))))
  rcases List.mem_append.1 h with h | h
  · obtain ⟨t, ht, hx⟩ := mem_optEntry h
    simp only [List.mem_singleton, Prod.mk.injEq] at hx
    exact .inr (.inr (.inr (.inr (.inr (.inr (.inr (.inr (.inr (.inr (.inr (.inl ⟨t, ht, hx.1, hx.2⟩)))))))))))
  rcases List.mem_append.1 h with h | h
  · obtain ⟨op, hop, hx⟩ := mem_optEntry h
    simp only [List.mem_cons, List.not_mem_nil, or_false,
      Prod.mk.injEq] at hx
    exact .inr (.inr (.inr (.inr (.inr (.inr (.inr (.inr (.inr (.inr (.inr (.inr (.inl ⟨op, hop, hx⟩))))))))))))
  rcases List.mem_append.1 h with h | h
  · obtain ⟨s, hs, hx⟩ := mem_optEntry h
    simp only [List.mem_singleton, Prod.mk.injEq] at hx
    exact .inr (.inr (.inr (.inr (.inr (.inr (.inr (.inr (.inr (.inr (.inr (.inr (.inr (.inl ⟨s, hs, hx.1, hx.2⟩)))))))))))))
  · obtain ⟨s, hs, hx⟩ := mem_optEntry h
    simp only [List.mem_singleton, Prod.mk.injEq] at hx
    exact .inr (.inr (.inr (.inr (.inr (.inr (.inr (.inr (.inr (.inr (.inr (.inr (.inr (.inr (⟨s, hs, hx.1, hx.2⟩))))))))))))))

/-- C9 counterexample: a controller whose operator is present but has
no name serializes the flattened `operatorName` field as JSON `null`
(the `Operator` struct's optional name carries no skip-if-none
attribute), and a present geo-location with a non-finite latitude
serializes the flattened `geoLatitude` as JSON `null` (serde_json's
rendering of non-finite floats) — the claim's "never emitted as null"
fails. -/
theorem c9_serialization_cex :
    ("operatorName", JsonVal.null) ∈ Controller.toJsonFields
      { Controller.default with
        operator := some ⟨⟨123, by decide⟩, none⟩ }
    ∧ ("geoLatitude", JsonVal.null) ∈ Controller.toJsonFields
      { Controller.default with
        geo_location := some ⟨⟨false⟩, ⟨true⟩⟩ } := by decide

/-- C9 (amended): the `Controller` serializer emits lower-camel-case
keys except the exact key `"IP"` for the address; every *directly*
optional field of `Controller` is omitted entirely when absent (never
emitted as null); the nested geo-location and operator structures are
flattened into the parent object as sibling fields (no
`"geoLocation"`/`"operator"` key); however, JSON `null` does appear as
a field value in exactly these cases: the flattened `operatorName` of
a present operator whose name is absent, and a flattened geo-location
coordinate whose value is non-finite (serde_json renders NaN/±Infinity
as null; the same happens to non-finite values inside the nested
cycle-data/variables objects).  The object for the repository's own
serialization test is reproduced exactly. -/
theorem c9_serialization (c : Controller) :
    ("IP", JsonVal.str c.address) ∈ c.toJsonFields
    ∧ (∀ v, ("address", v) ∉ c.toJsonFields)
    ∧ (∀ k v, (k, v) ∈ c.toJsonFields → k ∈ allowedJsonKeys)
    ∧ (c.display_name = none → ∀ v, ("displayName", v) ∉ c.toJsonFields)
    ∧ (c.geo_location = none → ∀ v,
        ("geoLatitude", v) ∉ c.toJsonFields
        ∧ ("geoLongitude", v) ∉ c.toJsonFields)
    ∧ (c.last_cycle_data = none → ∀ v,
        ("lastCycleData", v) ∉ c.toJsonFields)
    ∧ (c.variables_ = none → ∀ v, ("variables", v) ∉ c.toJsonFields)
    ∧ (c.last_connection_time = none → ∀ v,
        ("lastConnectionTime", v) ∉ c.toJsonFields)
    ∧ (c.operator = none → ∀ v,
        ("operatorId", v) ∉ c.toJsonFields
        ∧ ("operatorName", v) ∉ c.toJsonFields)
    ∧ (c.job_card_id = none → ∀ v, ("jobCardId", v) ∉ c.toJsonFields)
    ∧ (c.mold_id = none → ∀ v, ("moldId", v) ∉ c.toJsonFields)
    ∧ (∀ g, c.geo_location = some g →
        ("geoLatitude", f64Json g.geo_latitude) ∈ c.toJsonFields
        ∧ ("geoLongitude", f64Json g.geo_longitude) ∈ c.toJsonFields
        ∧ ∀ v, ("geoLocation", v) ∉ c.toJsonFields)
    ∧ (∀ op, c.operator = some op →
        ("operatorId", JsonVal.nat op.operator_id.get) ∈ c.toJsonFields
        ∧ ∀ v, ("operator", v) ∉ c.toJsonFields)
    ∧ (∀ k v, (k, v) ∈ c.toJsonFields → v = JsonVal.null →
        (k = "operatorName"
          ∧ ∃ op, c.operator = some op ∧ op.operator_name = none)
        ∨ (k = "geoLatitude"
          ∧ ∃ g, c.geo_location = some g
              ∧ g.geo_latitude.isFinite = false)
        ∨ (k = "geoLongitude"
          ∧ ∃ g, c.geo_location = some g
              ∧ g.geo_longitude.isFinite = false))
    ∧ Controller.toJsonFields testControllerSer = testControllerJson := by
  refine ⟨?_, ?_, ?_, ?_, ?_, ?_, ?_, ?_, ?_, ?_, ?_, ?_, ?_, ?_,
    by decide⟩
  · unfold Controller.toJsonFields
    simp [optEntry]
  · intro v hmem
    rcases toJson_origin c _ _ hmem with ⟨hk, _⟩ | ⟨s, hs, hk, _⟩ |
      ⟨hk, _⟩ | ⟨hk, _⟩ | ⟨hk, _⟩ | ⟨hk, _⟩ |
      ⟨g, hg, ⟨hk, _⟩ | ⟨hk, _⟩⟩ | ⟨hk, _⟩ | ⟨hk, _⟩ |
      ⟨m, hm, hk, _⟩ | ⟨m, hm, hk, _⟩ | ⟨t, ht, hk, _⟩ |
      ⟨op, hop, ⟨hk, _⟩ | ⟨hk, _⟩⟩ | ⟨s, hs, hk, _⟩ |
      ⟨s, hs, hk, _⟩ <;> simp_all
  · intro k v hmem
    rcases toJson_origin c _ _ hmem with ⟨hk, _⟩ | ⟨s, hs, hk, _⟩ |
      ⟨hk, _⟩ | ⟨hk, _⟩ | ⟨hk, _⟩ | ⟨hk, _⟩ |
      ⟨g, hg, ⟨hk, _⟩ | ⟨hk, _⟩⟩ | ⟨hk, _⟩ | ⟨hk, _⟩ |
      ⟨m, hm, hk, _⟩ | ⟨m, hm, hk, _⟩ | ⟨t, ht, hk, _⟩ |
      ⟨op, hop, ⟨hk, _⟩ | ⟨hk, _⟩⟩ | ⟨s, hs, hk, _⟩ |
      ⟨s, hs, hk, _⟩ <;> subst hk <;> decide
  · intro hnone v hmem
    rcases toJson_origin c _ _ hmem with ⟨hk, _⟩ | ⟨s, hs, hk, _⟩ |
      ⟨hk, _⟩ | ⟨hk, _⟩ | ⟨hk, _⟩ | ⟨hk, _⟩ |
      ⟨g, hg, ⟨hk, _⟩ | ⟨hk, _⟩⟩ | ⟨hk, _⟩ | ⟨hk, _⟩ |
      ⟨m, hm, hk, _⟩ | ⟨m, hm, hk, _⟩ | ⟨t, ht, hk, _⟩ |
      ⟨op, hop, ⟨hk, _⟩ | ⟨hk, _⟩⟩ | ⟨s, hs, hk, _⟩ |
      ⟨s, hs, hk, _⟩ <;> simp_all
  · intro hnone v
    constructor <;> intro hmem <;>
      rcases toJson_origin c _ _ hmem with ⟨hk, _⟩ | ⟨s, hs, hk, _⟩ |
        ⟨hk, _⟩ | ⟨hk, _⟩ | ⟨hk, _⟩ | ⟨hk, _⟩ |
        ⟨g, hg, ⟨hk, _⟩ | ⟨hk, _⟩⟩ | ⟨hk, _⟩ | ⟨hk, _⟩ |
        ⟨m, hm, hk, _⟩ | ⟨m, hm, hk, _⟩ | ⟨t, ht, hk, _⟩ |
        ⟨op, hop, ⟨hk, _⟩ | ⟨hk, _⟩⟩ | ⟨s, hs, hk, _⟩ |
        ⟨s, hs, hk, _⟩ <;> simp_all
  · intro hnone v hmem
    rcases toJson_origin c _ _ hmem with ⟨hk, _⟩ | ⟨s, hs, hk, _⟩ |
      ⟨hk, _⟩ | ⟨hk, _⟩ | ⟨hk, _⟩ | ⟨hk, _⟩ |
      ⟨g, hg, ⟨hk, _⟩ | ⟨hk, _⟩⟩ | ⟨hk, _⟩ | ⟨hk, _⟩ |
      ⟨m, hm, hk, _⟩ | ⟨m, hm, hk, _⟩ | ⟨t, ht, hk, _⟩ |
      ⟨op, hop, ⟨hk, _⟩ | ⟨hk, _⟩⟩ | ⟨s, hs, hk, _⟩ |
      ⟨s, hs, hk, _⟩ <;> simp_all
  · intro hnone v hmem
    rcases toJson_origin c _ _ hmem with ⟨hk, _⟩ | ⟨s, hs, hk, _⟩ |
      ⟨hk, _⟩ | ⟨hk, _⟩ | ⟨hk, _⟩ | ⟨hk, _⟩ |
      ⟨g, hg, ⟨hk, _⟩ | ⟨hk, _⟩⟩ | ⟨hk, _⟩ | ⟨hk, _⟩ |
      ⟨m, hm, hk, _⟩ | ⟨m, hm, hk, _⟩ | ⟨t, ht, hk, _⟩ |
      ⟨op, hop, ⟨hk, _⟩ | ⟨hk, _⟩⟩ | ⟨s, hs, hk, _⟩ |
      ⟨s, hs, hk, _⟩ <;> simp_all
  · intro hnone v hmem
    rcases toJson_origin c _ _ hmem with ⟨hk, _⟩ | ⟨s, hs, hk, _⟩ |
      ⟨hk, _⟩ | ⟨hk, _⟩ | ⟨hk, _⟩ | ⟨hk, _⟩ |
      ⟨g, hg, ⟨hk, _⟩ | ⟨hk, _⟩⟩ | ⟨hk, _⟩ | ⟨hk, _⟩ |
      ⟨m, hm, hk, _⟩ | ⟨m, hm, hk, _⟩ | ⟨t, ht, hk, _⟩ |
      ⟨op, hop, ⟨hk, _⟩ | ⟨hk, _⟩⟩ | ⟨s, hs, hk, _⟩ |
      ⟨s, hs, hk, _⟩ <;> simp_all
  · intro hnone v
    constructor <;> intro hmem <;>
      rcases toJson_origin c _ _ hmem with ⟨hk, _⟩ | ⟨s, hs, hk, _⟩ |
        ⟨hk, _⟩ | ⟨hk, _⟩ | ⟨hk, _⟩ | ⟨hk, _⟩ |
        ⟨g, hg, ⟨hk, _⟩ | ⟨hk, _⟩⟩ | ⟨hk, _⟩ | ⟨hk, _⟩ |
        ⟨m, hm, hk, _⟩ | ⟨m, hm, hk, _⟩ | ⟨t, ht, hk, _⟩ |
        ⟨op, hop, ⟨hk, _⟩ | ⟨hk, _⟩⟩ | ⟨s, hs, hk, _⟩ |
        ⟨s, hs, hk, _⟩ <;> simp_all
  · intro hnone v hmem
    rcases toJson_origin c _ _ hmem with ⟨hk, _⟩ | ⟨s, hs, hk, _⟩ |
      ⟨hk, _⟩ | ⟨hk, _⟩ | ⟨hk, _⟩ | ⟨hk, _⟩ |
      ⟨g, hg, ⟨hk, _⟩ | ⟨hk, _⟩⟩ | ⟨hk, _⟩ | ⟨hk, _⟩ |
      ⟨m, hm, hk, _⟩ | ⟨m, hm, hk, _⟩ | ⟨t, ht, hk, _⟩ |
      ⟨op, hop, ⟨hk, _⟩ | ⟨hk, _⟩⟩ | ⟨s, hs, hk, _⟩ |
      ⟨s, hs, hk, _⟩ <;> simp_all
  · intro hnone v hmem
    rcases toJson_origin c _ _ hmem with ⟨hk, _⟩ | ⟨s, hs, hk, _⟩ |
      ⟨hk, _⟩ | ⟨hk, _⟩ | ⟨hk, _⟩ | ⟨hk, _⟩ |
      ⟨g, hg, ⟨hk, _⟩ | ⟨hk, _⟩⟩ | ⟨hk, _⟩ | ⟨hk, _⟩ |
      ⟨m, hm, hk, _⟩ | ⟨m, hm, hk, _⟩ | ⟨t, ht, hk, _⟩ |
      ⟨op, hop, ⟨hk, _⟩ | ⟨hk, _⟩⟩ | ⟨s, hs, hk, _⟩ |
      ⟨s, hs, hk, _⟩ <;> simp_all
  · intro g hg
    refine ⟨?_, ?_, ?_⟩
    · unfold Controller.toJsonFields
      simp [optEntry, hg]
    · unfold Controller.toJsonFields
      simp [optEntry, hg]
    · intro v hmem
      rcases toJson_origin c _ _ hmem with ⟨hk, _⟩ | ⟨s, hs, hk, _⟩ |
        ⟨hk, _⟩ | ⟨hk, _⟩ | ⟨hk, _⟩ | ⟨hk, _⟩ |
        ⟨g2, hg2, ⟨hk, _⟩ | ⟨hk, _⟩⟩ | ⟨hk, _⟩ | ⟨hk, _⟩ |
        ⟨m, hm, hk, _⟩ | ⟨m, hm, hk, _⟩ | ⟨t, ht, hk, _⟩ |
        ⟨op, hop, ⟨hk, _⟩ | ⟨hk, _⟩⟩ | ⟨s, hs, hk, _⟩ |
        ⟨s, hs, hk, _⟩ <;> simp_all
  · intro op hop
    refine ⟨?_, ?_⟩
    · unfold Controller.toJsonFields
      simp [optEntry, hop]
    · intro v hmem
      rcases toJson_origin c _ _ hmem with ⟨hk, _⟩ | ⟨s, hs, hk, _⟩ |
        ⟨hk, _⟩ | ⟨hk, _⟩ | ⟨hk, _⟩ | ⟨hk, _⟩ |
        ⟨g, hg, ⟨hk, _⟩ | ⟨hk, _⟩⟩ | ⟨hk, _⟩ | ⟨hk, _⟩ |
        ⟨m, hm, hk, _⟩ | ⟨m, hm, hk, _⟩ | ⟨t, ht, hk, _⟩ |
        ⟨op2, hop2, ⟨hk, _⟩ | ⟨hk, _⟩⟩ | ⟨s, hs, hk, _⟩ |
        ⟨s, hs, hk, _⟩ <;> simp_all
  · intro k v hmem hnull
    rcases toJson_origin c _ _ hmem with ⟨hk, hv⟩ | ⟨s, hs, hk, hv⟩ |
      ⟨hk, hv⟩ | ⟨hk, hv⟩ | ⟨hk, hv⟩ | ⟨hk, hv⟩ |
      ⟨g, hg, ⟨hk, hv⟩ | ⟨hk, hv⟩⟩ | ⟨hk, hv⟩ | ⟨hk, hv⟩ |
      ⟨m, hm, hk, hv⟩ | ⟨m, hm, hk, hv⟩ | ⟨t, ht, hk, hv⟩ |
      ⟨op, hop, ⟨hk, hv⟩ | ⟨hk, hv⟩⟩ | ⟨s, hs, hk, hv⟩ |
      ⟨s, hs, hk, hv⟩ <;> subst hnull <;>
      try (exact absurd hv (by simp))
    · cases hfin : g.geo_latitude.isFinite
      · exact .inr (.inl ⟨hk, g, hg, hfin⟩)
      · rw [f64Json, hfin] at hv
        exact absurd hv (by simp)
    · cases hfin : g.geo_longitude.isFinite
      · exact .inr (.inr ⟨hk, g, hg, hfin⟩)
      · rw [f64Json, hfin] at hv
        exact absurd hv (by simp)
    · rcases hnm : op.operator_name with _ | nm
      · exact .inl ⟨hk, op, hop, hnm⟩
      · rw [hnm] at hv
        simp [operatorNameJson] at hv

/-- Witness for C9, instantiated at the repository's own serialization
test controller. -/
theorem c9_serialization_witness :
    ("IP", JsonVal.str "0.0.0.0:1")
        ∈ Controller.toJsonFields testControllerSer
    ∧ ("displayName", JsonVal.null)
        ∉ Controller.toJsonFields testControllerSer
    ∧ ("operator", JsonVal.null)
        ∉ Controller.toJsonFields testControllerSer
    ∧ Controller.toJsonFields testControllerSer = testControllerJson := by
  have h := c9_serialization testControllerSer
  exact ⟨h.1, h.2.2.2.1 rfl JsonVal.null,
    (h.2.2.2.2.2.2.2.2.2.2.2.2.1
      (⟨⟨123, by decide⟩, some "John"⟩ : Operator) rfl).2 JsonVal.null,
    h.2.2.2.2.2.2.2.2.2.2.2.2.2.2⟩
